import Mathlib

/-!
# Verification of the text-3d-threejs particle/gesture core

Shallow embedding, over `ℚ`, of the particle simulation (`ParticleSystem`
in the repository) and the gesture classifier (`HandTracker`) of the
text-3d-threejs repository.  External, non-algebraic primitives
(`Math.sin`, `Math.sqrt`, `Math.cos`, `Math.random`) are modelled as
oracle function parameters; theorems that depend on their analytic
properties carry those properties as explicit hypotheses.
-/

namespace Text3D

/-- A 3-component vector, mirroring `THREE.Vector3` as used by the code. -/
structure Vec3 where
  x : ℚ
  y : ℚ
  z : ℚ
deriving DecidableEq, Repr

/-- `THREE.Vector3.add`, componentwise. -/
def Vec3.add (a b : Vec3) : Vec3 := ⟨a.x + b.x, a.y + b.y, a.z + b.z⟩

/-- `THREE.Vector3.sub`, componentwise. -/
def Vec3.sub (a b : Vec3) : Vec3 := ⟨a.x - b.x, a.y - b.y, a.z - b.z⟩

instance : Add Vec3 := ⟨Vec3.add⟩

instance : Sub Vec3 := ⟨Vec3.sub⟩

/-- Scalar multiplication on `Vec3`. -/
def Vec3.scale (c : ℚ) (v : Vec3) : Vec3 := ⟨c * v.x, c * v.y, c * v.z⟩

/-- The zero vector. -/
def Vec3.zero : Vec3 := ⟨0, 0, 0⟩

/-- An RGB colour, mirroring `THREE.Color` (each channel a float). -/
structure Color where
  r : ℚ
  g : ℚ
  b : ℚ
deriving DecidableEq, Repr

/-- `THREE.Color.lerp` on one channel: `a + (b - a) * t`. -/
def lerpQ (a b t : ℚ) : ℚ := a + (b - a) * t

/-- `THREE.Color.lerp`: componentwise linear interpolation. -/
def Color.lerp (c d : Color) (t : ℚ) : Color :=
  ⟨lerpQ c.r d.r t, lerpQ c.g d.g t, lerpQ c.b d.b t⟩

/-- The discrete right-hand action of `interactionState.rightHandAction`.
`openHand` models the string `'open'` (a Lean keyword); `oneFinger` and
`twoFingers` appear only in the richer classifier variant. -/
inductive HandAction where
  | neutral
  | fist
  | openHand
  | oneFinger
  | twoFingers
deriving DecidableEq, Repr

/-- `this.interactionState` of `HandTracker`. -/
structure InteractionState where
  mode : ℕ
  rightHandPos : Vec3
  rightHandAction : HandAction
deriving DecidableEq, Repr

/-- The "absent hand" sentinel position `(9999, 9999, 0)`. -/
def sentinelPos : Vec3 := ⟨9999, 9999, 0⟩

/-- The fields of `CONFIG` (from `config.js`) that the core reads. -/
structure Config where
  particleCount : ℕ
  returnSpeed : ℚ
  friction : ℚ
  handInfluenceRadius : ℚ
  physicsInfluenceRadius : ℚ
  forceMultiplier : ℚ
  fistThreshold : ℚ
  openThreshold : ℚ
deriving DecidableEq, Repr

/-- The concrete `CONFIG` values of `config.js`. -/
def CONFIG : Config :=
  { particleCount := 8000
    returnSpeed := 12/100
    friction := 92/100
    handInfluenceRadius := 250
    physicsInfluenceRadius := 50000
    forceMultiplier := 15000
    fistThreshold := 15/100
    openThreshold := 28/100 }

/-- A theme's two colours (`color1`, `color2` of a `THEMES` entry). -/
structure Theme where
  color1 : Color
  color2 : Color
deriving DecidableEq, Repr

/-! ## ParticleSystem state and update -/

/-- The mutable state of `ParticleSystem`: the three parallel per-particle
arrays plus the externally visible flat position and colour buffers
(`geometry.attributes.position.array` / `.color.array`). -/
structure PSState where
  currentPositions : List Vec3
  velocities : List Vec3
  targetPositions : List Vec3
  positionsBuf : List ℚ
  colorsBuf : List ℚ
deriving DecidableEq, Repr

/-- Flatten a list of vectors into a flat buffer of 3 rationals per entry,
as the `Float32Array` position buffer stores them. -/
def flatten3 : List Vec3 → List ℚ
  | [] => []
  | a :: rest => a.x :: a.y :: a.z :: flatten3 rest

/-- Flatten a list of colours into a flat buffer, 3 channels per entry. -/
def flattenC : List Color → List ℚ
  | [] => []
  | c :: rest => c.r :: c.g :: c.b :: flattenC rest

/-- The colour computation of one `ParticleSystem.update` iteration
(`// Color animation`, `// Hand proximity color effect`,
`// Increase color intensity`):  `sinVal` is the value returned by
`Math.sin(time * 1.5 + p.x * 0.0015)`, and `sqrtFn` models `Math.sqrt`
(used by `p.distanceTo(rhPos)`). -/
def colorStep (cfg : Config) (sqrtFn : ℚ → ℚ) (sinVal : ℚ) (theme : Theme)
    (rhPos : Vec3) (p : Vec3) : Color :=
  let mixRatio := (sinVal + 1) / 2
  let c := Color.lerp theme.color1 theme.color2 mixRatio
  let c :=
    if rhPos.x ≠ 9999 then
      let distToHand := sqrtFn ((p.x - rhPos.x)^2 + (p.y - rhPos.y)^2 + (p.z - rhPos.z)^2)
      if distToHand < cfg.handInfluenceRadius then
        let influence := 1 - distToHand / cfg.handInfluenceRadius
        let c2 := Color.lerp c ⟨1, 1, 1⟩ (influence * (9/10))
        ⟨c2.r * (12/10), c2.g * (12/10), c2.b * (12/10)⟩
      else c
    else c
  ⟨min 1 (c.r * (12/10)), min 1 (c.g * (12/10)), min 1 (c.b * (12/10))⟩

/-- The physics computation of one `ParticleSystem.update` iteration,
transcribed sequentially from the source (`// Return force to target`,
`// Random noise`, `// Hand interaction physics`, `// Apply friction`,
`// Update position`).  `noise` is the vector of the three
`(Math.random() - 0.5) * 0.8` draws of this iteration.  Returns the new
position and the new velocity. -/
def updateParticlePhys (cfg : Config) (rhPos : Vec3) (rhAction : HandAction)
    (noise : Vec3) (p v t : Vec3) : Vec3 × Vec3 :=
  let fx := (t.x - p.x) * cfg.returnSpeed
  let fy := (t.y - p.y) * cfg.returnSpeed
  let fz := (t.z - p.z) * cfg.returnSpeed
  let v1 : Vec3 := ⟨v.x + fx, v.y + fy, v.z + fz⟩
  let v2 : Vec3 := ⟨v1.x + noise.x, v1.y + noise.y, v1.z + noise.z⟩
  let v3 : Vec3 :=
    if rhPos.x ≠ 9999 then
      let dx := p.x - rhPos.x
      let dy := p.y - rhPos.y
      let dz := p.z - rhPos.z
      let distSq := dx * dx + dy * dy + dz * dz + 100
      if distSq < cfg.physicsInfluenceRadius then
        let forceMagnitude := cfg.forceMultiplier / distSq
        match rhAction with
        | .fist =>
            ⟨v2.x - dx * forceMagnitude * (8/100) + dy * (5/100),
             v2.y - dy * forceMagnitude * (8/100) - dx * (5/100),
             v2.z - dz * forceMagnitude * (8/100)⟩
        | .openHand =>
            ⟨v2.x + dx * forceMagnitude * (15/100),
             v2.y + dy * forceMagnitude * (15/100),
             v2.z + dz * forceMagnitude * (15/100) + 2⟩
        | _ =>
            ⟨v2.x + dx * forceMagnitude * (2/100),
             v2.y + dy * forceMagnitude * (2/100),
             v2.z + dz * forceMagnitude * (2/100)⟩
      else v2
    else v2
  let v4 : Vec3 := ⟨v3.x * cfg.friction, v3.y * cfg.friction, v3.z * cfg.friction⟩
  let p' : Vec3 := ⟨p.x + v4.x, p.y + v4.y, p.z + v4.z⟩
  (p', v4)

/-- The net velocity contribution of the `// Hand interaction physics`
block, as a single vector: zero when the hand is absent or the particle
is outside the physics-influence radius, and otherwise the branch picked
by `rhAction`. -/
def handForce (cfg : Config) (rhPos : Vec3) (rhAction : HandAction) (p : Vec3) : Vec3 :=
  if rhPos.x ≠ 9999 then
    let dx := p.x - rhPos.x
    let dy := p.y - rhPos.y
    let dz := p.z - rhPos.z
    let distSq := dx * dx + dy * dy + dz * dz + 100
    if distSq < cfg.physicsInfluenceRadius then
      let forceMagnitude := cfg.forceMultiplier / distSq
      match rhAction with
      | .fist =>
          ⟨-(dx * forceMagnitude * (8/100)) + dy * (5/100),
           -(dy * forceMagnitude * (8/100)) - dx * (5/100),
           -(dz * forceMagnitude * (8/100))⟩
      | .openHand =>
          ⟨dx * forceMagnitude * (15/100),
           dy * forceMagnitude * (15/100),
           dz * forceMagnitude * (15/100) + 2⟩
      | _ =>
          ⟨dx * forceMagnitude * (2/100),
           dy * forceMagnitude * (2/100),
           dz * forceMagnitude * (2/100)⟩
    else Vec3.zero
  else Vec3.zero

/-- The spring-return force `(target - position) * returnSpeed`. -/
def springForce (cfg : Config) (p t : Vec3) : Vec3 :=
  Vec3.scale cfg.returnSpeed (t - p)

/-- The noise vector of particle `i`: the three sequential
`(Math.random() - 0.5) * 0.8` draws of its loop iteration, where `rand`
models the global `Math.random` stream. -/
def noiseVec (rand : ℕ → ℚ) (i : ℕ) : Vec3 :=
  ⟨(rand (3*i) - 1/2) * (8/10),
   (rand (3*i + 1) - 1/2) * (8/10),
   (rand (3*i + 2) - 1/2) * (8/10)⟩

/-- One full iteration of the `ParticleSystem.update` loop for particle
`i`: colour, then physics.  Returns `(colour, (newPosition, newVelocity))`. -/
def updateIter (cfg : Config) (sinFn sqrtFn : ℚ → ℚ) (rand : ℕ → ℚ)
    (time : ℚ) (theme : Theme) (istate : InteractionState)
    (st : PSState) (i : ℕ) : Color × (Vec3 × Vec3) :=
  let p := st.currentPositions.getD i Vec3.zero
  let v := st.velocities.getD i Vec3.zero
  let t := st.targetPositions.getD i Vec3.zero
  let sinVal := sinFn (time * (3/2) + p.x * (15/10000))
  let c := colorStep cfg sqrtFn sinVal theme istate.rightHandPos p
  let pv := updateParticlePhys cfg istate.rightHandPos istate.rightHandAction
      (noiseVec rand i) p v t
  (c, pv)

/-- `ParticleSystem.update(time, theme, interactionState)`: runs the
per-particle loop for `i < cfg.particleCount` and overwrites the particle
arrays and the flat position/colour buffers in place.  `sinFn`, `sqrtFn`
and `rand` model `Math.sin`, `Math.sqrt` and the `Math.random` stream. -/
def psUpdate (cfg : Config) (sinFn sqrtFn : ℚ → ℚ) (rand : ℕ → ℚ)
    (time : ℚ) (theme : Theme) (istate : InteractionState)
    (st : PSState) : PSState :=
  let res := (List.range cfg.particleCount).map
      (updateIter cfg sinFn sqrtFn rand time theme istate st)
  { st with
    currentPositions := res.map (fun r => r.2.1)
    velocities := res.map (fun r => r.2.2)
    positionsBuf := flatten3 (res.map (fun r => r.2.1))
    colorsBuf := flattenC (res.map (fun r => r.1)) }

/-! ## Glyph target generation (`generateTextParticles`) -/

/-- A sampled glyph point, in centred scaled glyph space. -/
structure GlyphPoint where
  x : ℚ
  y : ℚ
deriving DecidableEq, Repr

/-- Insert one element into a list under a random comparator, following
`Array.prototype.sort` with comparator `() => Math.random() - 0.5` as an
insertion sort (the algorithm JS engines use for short arrays).  Each
`Bool` drawn from `bits` is one comparator call, `true` meaning the draw
was negative (element sorts before).  Returns the list and the unused
bits. -/
def insertBits {α : Type} : List Bool → α → List α → List α × List Bool
  | bs, a, [] => ([a], bs)
  | [], a, x :: xs => (a :: x :: xs, [])
  | b :: bs, a, x :: xs =>
      if b then (a :: x :: xs, bs)
      else
        let r := insertBits bs a xs
        (x :: r.1, r.2)

/-- Insertion sort consuming comparator outcomes from `bits`. -/
def isortBits {α : Type} : List Bool → List α → List α × List Bool
  | bs, [] => ([], bs)
  | bs, x :: xs =>
      let r := isortBits bs xs
      insertBits r.2 x r.1

/-- The shuffle `validPoints.sort(() => Math.random() - 0.5)` of
`generateTextParticles`, with the comparator's random signs given by
`bits`. -/
def jsShuffle {α : Type} (bits : List Bool) (l : List α) : List α :=
  (isortBits bits l).1

/-- All Boolean vectors of length `n` (the sample space of `n` fair
comparator draws). -/
def allBitVecs : ℕ → List (List Bool)
  | 0 => [[]]
  | n + 1 => (allBitVecs n).map (fun v => true :: v) ++
      (allBitVecs n).map (fun v => false :: v)

/-- Number of length-`n` comparator-outcome vectors under which the
shuffle of `l` produces exactly `target` — i.e. `2^n` times the
probability of `target` under fair draws. -/
def shuffleCount (n : ℕ) (l target : List ℕ) : ℕ :=
  ((allBitVecs n).filter (fun bv => jsShuffle bv l = target)).length

/-- The target-population loop of `generateTextParticles` (after the
shuffle): particle `i` takes the `i`-th point when one exists, and
otherwise a synthetic ring point.  In the source the fallback is
`(cos(angle) * r, sin(angle) * r, (random - 0.5) * 400)` with
`angle = random * 2 * PI` and `r = 500 + random * 500`; `cosA i`/`sinA i`
model the cosine/sine of particle `i`'s drawn angle and `randR i`,
`randZ i` model its two other `Math.random()` draws. -/
def generateTargets (count : ℕ) (validPoints : List GlyphPoint)
    (cosA sinA randR randZ : ℕ → ℚ) : List Vec3 :=
  (List.range count).map (fun i =>
    if h : i < validPoints.length then
      ⟨(validPoints.get ⟨i, h⟩).x, (validPoints.get ⟨i, h⟩).y, 0⟩
    else
      let r := 500 + randR i * 500
      ⟨cosA i * r, sinA i * r, (randZ i - 1/2) * 400⟩)

/-- `ParticleSystem.generateTextParticles` from the sampled foreground
points onward: shuffle, then populate the target list. -/
def generateTextParticles (count : ℕ) (bits : List Bool)
    (validPoints : List GlyphPoint) (cosA sinA randR randZ : ℕ → ℚ) :
    List Vec3 :=
  generateTargets count (jsShuffle bits validPoints) cosA sinA randR randZ

/-! ## HandTracker: gesture classification -/

/-- One MediaPipe hand landmark; the classifier reads only `x` and `y`. -/
structure Landmark where
  x : ℚ
  y : ℚ
deriving DecidableEq, Repr

/-- A detected hand: its handedness label (`label === 'Right'`) and its
21-landmark array, modelled as a total function on indices. -/
structure TrackedHand where
  isRight : Bool
  landmarks : ℕ → Landmark

/-- `HandTracker.processLeftHand` of the primary variant
(`HandTracker.js`): count the four non-thumb fingers whose tip is above
its PIP joint and commit the count as `mode` when it is in `[1, 3]` and
differs from the current mode. -/
def processLeftHand (lm : ℕ → Landmark) (st : InteractionState) :
    InteractionState :=
  let fingers : ℕ :=
    (if (lm 8).y < (lm 6).y then 1 else 0) +
    (if (lm 12).y < (lm 10).y then 1 else 0) +
    (if (lm 16).y < (lm 14).y then 1 else 0) +
    (if (lm 20).y < (lm 18).y then 1 else 0)
  if 1 ≤ fingers ∧ fingers ≤ 3 ∧ st.mode ≠ fingers then
    { st with mode := fingers }
  else st

/-- The hand position mapping of `processRightHand`:
`x = (1 - lx) * width - width/2`, `y = -(ly * height - height/2)`,
`z = 0`, from landmark 9. -/
def handScreenPos (width height : ℚ) (lm : ℕ → Landmark) : Vec3 :=
  ⟨(1 - (lm 9).x) * width - width / 2, -((lm 9).y * height - height / 2), 0⟩

/-- The average fingertip-to-wrist distance `avgDist` of the classifier:
mean of the Euclidean distances of tips 8, 12, 16, 20 from the wrist
(landmark 0), with `Math.sqrt` modelled by `sqrtFn`. -/
def avgDist (sqrtFn : ℚ → ℚ) (lm : ℕ → Landmark) : ℚ :=
  let w := lm 0
  let d (t : Landmark) : ℚ := sqrtFn ((t.x - w.x)^2 + (t.y - w.y)^2)
  (d (lm 8) + d (lm 12) + d (lm 16) + d (lm 20)) / 4

/-- `HandTracker.processRightHand` of the primary variant
(`HandTracker.js`, "improved detection"): position from landmark 9, then
the strict threshold dispatch on `avgDist`. -/
def processRightHand (cfg : Config) (width height : ℚ) (sqrtFn : ℚ → ℚ)
    (lm : ℕ → Landmark) (st : InteractionState) : InteractionState :=
  let st := { st with rightHandPos := handScreenPos width height lm }
  if avgDist sqrtFn lm < cfg.fistThreshold then
    { st with rightHandAction := .fist }
  else if avgDist sqrtFn lm > cfg.openThreshold then
    { st with rightHandAction := .openHand }
  else
    { st with rightHandAction := .neutral }

/-- The curled-finger count of the curl-based classifier variants: a
finger is curled when its tip's `y` exceeds its PIP joint's `y`. -/
def curledCount (lm : ℕ → Landmark) : ℕ :=
  (if (lm 8).y > (lm 6).y then 1 else 0) +
  (if (lm 12).y > (lm 10).y then 1 else 0) +
  (if (lm 16).y > (lm 14).y then 1 else 0) +
  (if (lm 20).y > (lm 18).y then 1 else 0)

/-- The average fingertip-to-PIP distance `avgTipToPipDist` of the
curl-based classifier variants. -/
def avgTipToPipDist (sqrtFn : ℚ → ℚ) (lm : ℕ → Landmark) : ℚ :=
  let d (t p : Landmark) : ℚ := sqrtFn ((t.x - p.x)^2 + (t.y - p.y)^2)
  (d (lm 8) (lm 6) + d (lm 12) (lm 10) + d (lm 16) (lm 14) +
    d (lm 20) (lm 18)) / 4

/-- `HandTracker.processRightHand` of the curl-based variant with an
`open` branch (file `part_002`): fist when (≥ 3 curled fingers and
`avgTipToPipDist < 0.08`) or `avgDist < fistThreshold`; open when ≤ 1
curled finger and `avgDist > openThreshold`; otherwise neutral. -/
def processRightHandV2 (cfg : Config) (width height : ℚ) (sqrtFn : ℚ → ℚ)
    (lm : ℕ → Landmark) (st : InteractionState) : InteractionState :=
  let st := { st with rightHandPos := handScreenPos width height lm }
  let isFist := (3 ≤ curledCount lm ∧ avgTipToPipDist sqrtFn lm < 8/100) ∨
      avgDist sqrtFn lm < cfg.fistThreshold
  let isOpen := curledCount lm ≤ 1 ∧ avgDist sqrtFn lm > cfg.openThreshold
  if isFist then { st with rightHandAction := .fist }
  else if isOpen then { st with rightHandAction := .openHand }
  else { st with rightHandAction := .neutral }

/-- The extended-finger count of the five-finger `processLeftHand`
variant (file `part_003`): the four non-thumb fingers by the tip-above-PIP
test, plus the thumb by the horizontal-and-distance test
(`tip.x > ip.x` and tip farther from the MCP than the IP is). -/
def fingersV3 (sqrtFn : ℚ → ℚ) (lm : ℕ → Landmark) : ℕ :=
  let thumbTip := lm 4
  let thumbIP := lm 3
  let thumbMCP := lm 2
  let thumbExtended := thumbTip.x > thumbIP.x ∧
      sqrtFn ((thumbTip.x - thumbMCP.x)^2 + (thumbTip.y - thumbMCP.y)^2) >
      sqrtFn ((thumbIP.x - thumbMCP.x)^2 + (thumbIP.y - thumbMCP.y)^2)
  (if thumbExtended then 1 else 0) +
  (if (lm 8).y < (lm 6).y then 1 else 0) +
  (if (lm 12).y < (lm 10).y then 1 else 0) +
  (if (lm 16).y < (lm 14).y then 1 else 0) +
  (if (lm 20).y < (lm 18).y then 1 else 0)

/-- `HandTracker.processLeftHand` of the five-finger variant (file
`part_003`): commit the extended-finger count as `mode` when it is in
`[1, 5]` and differs from the current mode. -/
def processLeftHandV3 (sqrtFn : ℚ → ℚ) (lm : ℕ → Landmark)
    (st : InteractionState) : InteractionState :=
  let fingers := fingersV3 sqrtFn lm
  if 1 ≤ fingers ∧ fingers ≤ 5 ∧ st.mode ≠ fingers then
    { st with mode := fingers }
  else st

/-- `HandTracker.processRightHand` of the richest variant (file
`part_003`): fist, then two-fingers, then one-finger, else neutral. -/
def processRightHandV3 (cfg : Config) (width height : ℚ) (sqrtFn : ℚ → ℚ)
    (lm : ℕ → Landmark) (st : InteractionState) : InteractionState :=
  let st := { st with rightHandPos := handScreenPos width height lm }
  let extendedFingers := 4 - curledCount lm
  let isOneFinger := extendedFingers = 1 ∧ (lm 8).y < (lm 6).y ∧
      (lm 12).y > (lm 10).y ∧ (lm 16).y > (lm 14).y ∧ (lm 20).y > (lm 18).y
  let isTwoFingers := extendedFingers = 2 ∧
      avgDist sqrtFn lm > cfg.openThreshold
  let isFist := (3 ≤ curledCount lm ∧ avgTipToPipDist sqrtFn lm < 8/100) ∨
      avgDist sqrtFn lm < cfg.fistThreshold
  if isFist then { st with rightHandAction := .fist }
  else if isTwoFingers then { st with rightHandAction := .twoFingers }
  else if isOneFinger then { st with rightHandAction := .oneFinger }
  else { st with rightHandAction := .neutral }

/-- `HandTracker.processResults` (primary variant): reset the right-hand
position to the sentinel and the action to neutral, return if the
detector arrays are missing (`none`), and otherwise dispatch each hand by
its handedness label. -/
def processResults (cfg : Config) (width height : ℚ) (sqrtFn : ℚ → ℚ)
    (results : Option (List TrackedHand)) (st : InteractionState) :
    InteractionState :=
  let st := { st with rightHandPos := sentinelPos,
                      rightHandAction := HandAction.neutral }
  match results with
  | none => st
  | some hands =>
      hands.foldl (fun s h =>
        if h.isRight then processRightHand cfg width height sqrtFn h.landmarks s
        else processLeftHand h.landmarks s) st

/-! ## Auxiliary predicates and concrete test inputs -/

/-- All three channels of a colour lie in `[0, 1]`. -/
def Color.inUnit (c : Color) : Prop :=
  0 ≤ c.r ∧ c.r ≤ 1 ∧ 0 ≤ c.g ∧ c.g ≤ 1 ∧ 0 ≤ c.b ∧ c.b ≤ 1

/-- The classifier state at startup: `mode = 1`, sentinel position,
neutral action. -/
def st0 : InteractionState := ⟨1, sentinelPos, HandAction.neutral⟩

/-- A landmark set whose four non-thumb fingertips are above their PIP
joints (all extended) and whose thumb is not extended. -/
def lmExtended : ℕ → Landmark := fun i =>
  if i = 8 ∨ i = 12 ∨ i = 16 ∨ i = 20 then ⟨0, 0⟩ else ⟨0, 1⟩

/-- A landmark set whose four non-thumb fingertips are below their PIP
joints (all curled). -/
def lmCurled : ℕ → Landmark := fun i =>
  if i = 8 ∨ i = 12 ∨ i = 16 ∨ i = 20 then ⟨0, 1⟩ else ⟨0, 0⟩

/-- A dominant-hand landmark set whose four fingertips are exactly
`0.15` from the wrist (so `avgDist = fistThreshold`) while all four
fingers are curled with fingertips `0.03` from their PIP joints. -/
def lm7 : ℕ → Landmark := fun i =>
  if i = 0 then ⟨0, 1/2⟩
  else if i = 8 ∨ i = 12 ∨ i = 16 ∨ i = 20 then ⟨15/100, 1/2⟩
  else if i = 6 ∨ i = 10 ∨ i = 14 ∨ i = 18 then ⟨15/100, 47/100⟩
  else ⟨0, 0⟩

/-- A partial square-root table that is exact on the two squared
distances occurring in `lm7` (`0.15² = 9/400` and `0.03² = 9/10000`). -/
def sqrt7 : ℚ → ℚ := fun q =>
  if q = 9/400 then 15/100 else if q = 9/10000 then 3/100 else 0

/-- A one-particle configuration for concrete evaluations, otherwise
identical to `CONFIG`. -/
def cfg1 : Config := { CONFIG with particleCount := 1 }

/-- A one-particle field state for concrete evaluations. -/
def stP : PSState :=
  { currentPositions := [⟨1, 2, 3⟩]
    velocities := [⟨0, 0, 0⟩]
    targetPositions := [⟨4, 5, 6⟩]
    positionsBuf := [1, 2, 3]
    colorsBuf := [1, 1, 1] }

/-- A theme with both colours inside the unit cube. -/
def theme0 : Theme := ⟨⟨1/2, 0, 1⟩, ⟨0, 1, 1/2⟩⟩

/-! ## Helper lemmas -/

theorem Vec3.add_def (a b : Vec3) : a + b = ⟨a.x + b.x, a.y + b.y, a.z + b.z⟩ := rfl

theorem Vec3.sub_def (a b : Vec3) : a - b = ⟨a.x - b.x, a.y - b.y, a.z - b.z⟩ := rfl

theorem getD_range_map {α : Type} (f : ℕ → α) (n i : ℕ) (hi : i < n) (d : α) :
    ((List.range n).map f).getD i d = f i := by
  have hlen : i < ((List.range n).map f).length := by
    simpa using hi
  rw [List.getD_eq_getElem _ _ hlen]
  simp

theorem flatten3_getD (l : List Vec3) (i : ℕ) (hi : i < l.length) :
    (flatten3 l).getD (3*i) 0 = (l.getD i Vec3.zero).x ∧
    (flatten3 l).getD (3*i + 1) 0 = (l.getD i Vec3.zero).y ∧
    (flatten3 l).getD (3*i + 2) 0 = (l.getD i Vec3.zero).z := by
  induction l generalizing i with
  | nil => simp at hi
  | cons a rest ih =>
      cases i with
      | zero => simp [flatten3]
      | succ j =>
          have hj : j < rest.length := by simpa using hi
          have h3 : 3 * (j + 1) = (3 * j + 2) + 1 := by ring
          have h4 : 3 * (j + 1) + 1 = ((3 * j + 2) + 1) + 1 := by ring
          have h5 : 3 * (j + 1) + 2 = (((3 * j + 2) + 1) + 1) + 1 := by ring
          rcases ih j hj with ⟨hx, hy, hz⟩
          refine ⟨?_, ?_, ?_⟩
          · rw [h3]; simpa [flatten3] using hx
          · rw [h4]; simpa [flatten3] using hy
          · rw [h5]; simpa [flatten3] using hz

theorem mem_flattenC {q : ℚ} {l : List Color} (hq : q ∈ flattenC l) :
    ∃ c ∈ l, q = c.r ∨ q = c.g ∨ q = c.b := by
  induction l with
  | nil => simp [flattenC] at hq
  | cons c rest ih =>
      simp only [flattenC, List.mem_cons] at hq
      rcases hq with h | h | h | h
      · exact ⟨c, List.mem_cons_self _ _, Or.inl h⟩
      · exact ⟨c, List.mem_cons_self _ _, Or.inr (Or.inl h)⟩
      · exact ⟨c, List.mem_cons_self _ _, Or.inr (Or.inr h)⟩
      · rcases ih h with ⟨d, hd, hqd⟩
        exact ⟨d, List.mem_cons_of_mem _ hd, hqd⟩

theorem lerpQ_unit {a b t : ℚ} (ha : 0 ≤ a) (ha1 : a ≤ 1) (hb : 0 ≤ b)
    (hb1 : b ≤ 1) (ht : 0 ≤ t) (ht1 : t ≤ 1) :
    0 ≤ lerpQ a b t ∧ lerpQ a b t ≤ 1 := by
  unfold lerpQ
  constructor <;> nlinarith

theorem lerpQ_one_nonneg {a t : ℚ} (ha : 0 ≤ a) (ha1 : a ≤ 1) (ht : 0 ≤ t) :
    0 ≤ lerpQ a 1 t := by
  unfold lerpQ
  nlinarith

theorem finalClamp_unit {x : ℚ} (hx : 0 ≤ x) :
    0 ≤ min 1 (x * (12/10)) ∧ min 1 (x * (12/10)) ≤ 1 :=
  ⟨le_min (by norm_num) (by positivity), min_le_left _ _⟩

/-- The `colorStep` of one update iteration stays in the unit cube as
long as the theme colours do and the sine oracle is in `[-1, 1]`. -/
theorem colorStep_inUnit (cfg : Config) (sqrtFn : ℚ → ℚ) (sinVal : ℚ)
    (theme : Theme) (rhPos p : Vec3) (hR : 0 < cfg.handInfluenceRadius)
    (hs0 : -1 ≤ sinVal) (hs1 : sinVal ≤ 1)
    (h1 : theme.color1.inUnit) (h2 : theme.color2.inUnit) :
    (colorStep cfg sqrtFn sinVal theme rhPos p).inUnit := by
  obtain ⟨h1r, h1r1, h1g, h1g1, h1b, h1b1⟩ := h1
  obtain ⟨h2r, h2r1, h2g, h2g1, h2b, h2b1⟩ := h2
  have hm0 : 0 ≤ (sinVal + 1) / 2 := by linarith
  have hm1 : (sinVal + 1) / 2 ≤ 1 := by linarith
  obtain ⟨hcr, hcr1⟩ := lerpQ_unit h1r h1r1 h2r h2r1 hm0 hm1
  obtain ⟨hcg, hcg1⟩ := lerpQ_unit h1g h1g1 h2g h2g1 hm0 hm1
  obtain ⟨hcb, hcb1⟩ := lerpQ_unit h1b h1b1 h2b h2b1 hm0 hm1
  simp only [colorStep, Color.lerp, Color.inUnit]
  split_ifs with hx hd <;> dsimp only
  · -- hand present and within the influence radius
    set d := sqrtFn ((p.x - rhPos.x)^2 + (p.y - rhPos.y)^2 + (p.z - rhPos.z)^2) with hdd
    have hdiv : d / cfg.handInfluenceRadius < 1 := (div_lt_one hR).2 hd
    have halpha : 0 ≤ (1 - d / cfg.handInfluenceRadius) * (9/10) := by nlinarith
    have hr2 := lerpQ_one_nonneg hcr hcr1 halpha
    have hg2 := lerpQ_one_nonneg hcg hcg1 halpha
    have hb2 := lerpQ_one_nonneg hcb hcb1 halpha
    exact ⟨(finalClamp_unit (by positivity)).1, min_le_left _ _,
      (finalClamp_unit (by positivity)).1, min_le_left _ _,
      (finalClamp_unit (by positivity)).1, min_le_left _ _⟩
  · exact ⟨(finalClamp_unit hcr).1, min_le_left _ _, (finalClamp_unit hcg).1,
      min_le_left _ _, (finalClamp_unit hcb).1, min_le_left _ _⟩
  · exact ⟨(finalClamp_unit hcr).1, min_le_left _ _, (finalClamp_unit hcg).1,
      min_le_left _ _, (finalClamp_unit hcb).1, min_le_left _ _⟩

/-- The sequential velocity mutation of the update loop equals a single
accumulation of all four force terms followed by one friction scaling,
and the new position is the old position plus the new velocity. -/
theorem updateParticlePhys_eq (cfg : Config) (rh : Vec3) (a : HandAction)
    (n p v t : Vec3) :
    updateParticlePhys cfg rh a n p v t =
      (p + Vec3.scale cfg.friction (v + springForce cfg p t + n + handForce cfg rh a p),
       Vec3.scale cfg.friction (v + springForce cfg p t + n + handForce cfg rh a p)) := by
  cases a <;>
  · simp only [updateParticlePhys, handForce, springForce]
    split_ifs <;>
    · simp only [Prod.mk.injEq, Vec3.mk.injEq, Vec3.add_def, Vec3.sub_def,
        Vec3.scale, Vec3.zero]
      refine ⟨⟨?_, ?_, ?_⟩, ?_, ?_, ?_⟩ <;> ring

theorem insertBits_perm {α : Type} :
    ∀ (bs : List Bool) (a : α) (l : List α), (insertBits bs a l).1.Perm (a :: l) := by
  intro bs a l
  induction l generalizing bs with
  | nil => simp [insertBits]
  | cons x xs ih =>
      cases bs with
      | nil => simp [insertBits]
      | cons b rest =>
          by_cases hb : b
          · simp [insertBits, hb]
          · simp only [insertBits, hb, if_false]
            exact ((ih rest).cons x).trans (List.Perm.swap a x xs)

theorem isortBits_perm {α : Type} :
    ∀ (bs : List Bool) (l : List α), (isortBits bs l).1.Perm l := by
  intro bs l
  induction l generalizing bs with
  | nil => simp [isortBits]
  | cons x xs ih =>
      simp only [isortBits]
      exact (insertBits_perm _ x _).trans (List.Perm.cons x (ih bs))

/-! ## Claim theorems -/

/-- C10: `ParticleSystem.update` never modifies any particle's target
position: for every input state, elapsed time, theme and interaction
state, the target array after `psUpdate` equals the target array before
the call. -/
theorem claim10_targets_preserved (cfg : Config) (sinFn sqrtFn : ℚ → ℚ)
    (rand : ℕ → ℚ) (time : ℚ) (theme : Theme) (istate : InteractionState)
    (st : PSState) :
    (psUpdate cfg sinFn sqrtFn rand time theme istate st).targetPositions =
      st.targetPositions := rfl

/-- C1: each `ParticleSystem.update` call computes the new velocity of
particle `i` as friction times the sum of the old velocity, the spring
force `(target - position) * returnSpeed`, the per-axis noise, and the
hand force (zero when not applicable) — friction applied exactly once,
after all force accumulation — then sets the new position to the old
position plus this new velocity and writes it into buffer slots
`3i`, `3i+1`, `3i+2`. -/
theorem claim1_update_friction_once (cfg : Config) (sinFn sqrtFn : ℚ → ℚ)
    (rand : ℕ → ℚ) (time : ℚ) (theme : Theme) (istate : InteractionState)
    (st : PSState) (i : ℕ) (p v t vNew : Vec3) (hi : i < cfg.particleCount)
    (hp : p = st.currentPositions.getD i Vec3.zero)
    (hv : v = st.velocities.getD i Vec3.zero)
    (ht : t = st.targetPositions.getD i Vec3.zero)
    (hw : vNew = Vec3.scale cfg.friction
      (v + springForce cfg p t + noiseVec rand i +
        handForce cfg istate.rightHandPos istate.rightHandAction p)) :
    (psUpdate cfg sinFn sqrtFn rand time theme istate st).velocities.getD i
        Vec3.zero = vNew ∧
    (psUpdate cfg sinFn sqrtFn rand time theme istate st).currentPositions.getD i
        Vec3.zero = p + vNew ∧
    (psUpdate cfg sinFn sqrtFn rand time theme istate st).positionsBuf.getD (3*i) 0
      = (p + vNew).x ∧
    (psUpdate cfg sinFn sqrtFn rand time theme istate st).positionsBuf.getD (3*i + 1) 0
      = (p + vNew).y ∧
    (psUpdate cfg sinFn sqrtFn rand time theme istate st).positionsBuf.getD (3*i + 2) 0
      = (p + vNew).z := by
  subst hp hv ht hw
  have hfun : ∀ (g : Color × (Vec3 × Vec3) → Vec3),
      (((List.range cfg.particleCount).map
        (updateIter cfg sinFn sqrtFn rand time theme istate st)).map g).getD i
          Vec3.zero
        = g (updateIter cfg sinFn sqrtFn rand time theme istate st i) := by
    intro g
    rw [List.map_map]
    exact getD_range_map _ _ i hi _
  have hiter : updateIter cfg sinFn sqrtFn rand time theme istate st i
      = (colorStep cfg sqrtFn
          (sinFn (time * (3/2) + (st.currentPositions.getD i Vec3.zero).x * (15/10000)))
          theme istate.rightHandPos (st.currentPositions.getD i Vec3.zero),
         updateParticlePhys cfg istate.rightHandPos istate.rightHandAction
           (noiseVec rand i) (st.currentPositions.getD i Vec3.zero)
           (st.velocities.getD i Vec3.zero) (st.targetPositions.getD i Vec3.zero)) := rfl
  have h2 : (updateIter cfg sinFn sqrtFn rand time theme istate st i).2
      = (st.currentPositions.getD i Vec3.zero +
          Vec3.scale cfg.friction
            (st.velocities.getD i Vec3.zero +
              springForce cfg (st.currentPositions.getD i Vec3.zero)
                (st.targetPositions.getD i Vec3.zero) +
              noiseVec rand i +
              handForce cfg istate.rightHandPos istate.rightHandAction
                (st.currentPositions.getD i Vec3.zero)),
         Vec3.scale cfg.friction
            (st.velocities.getD i Vec3.zero +
              springForce cfg (st.currentPositions.getD i Vec3.zero)
                (st.targetPositions.getD i Vec3.zero) +
              noiseVec rand i +
              handForce cfg istate.rightHandPos istate.rightHandAction
                (st.currentPositions.getD i Vec3.zero))) := by
    rw [hiter]
    exact updateParticlePhys_eq cfg istate.rightHandPos istate.rightHandAction
      (noiseVec rand i) (st.currentPositions.getD i Vec3.zero)
      (st.velocities.getD i Vec3.zero) (st.targetPositions.getD i Vec3.zero)
  have hvel := (hfun (fun r => r.2.2)).trans (congrArg Prod.snd h2)
  have hpos := (hfun (fun r => r.2.1)).trans (congrArg Prod.fst h2)
  have hlen : i < (((List.range cfg.particleCount).map
      (updateIter cfg sinFn sqrtFn rand time theme istate st)).map
        (fun r => r.2.1)).length := by
    simpa using hi
  have hb := flatten3_getD (((List.range cfg.particleCount).map
      (updateIter cfg sinFn sqrtFn rand time theme istate st)).map
        (fun r => r.2.1)) i hlen
  exact ⟨hvel, hpos,
    hb.1.trans (congrArg Vec3.x hpos),
    hb.2.1.trans (congrArg Vec3.y hpos),
    hb.2.2.trans (congrArg Vec3.z hpos)⟩

/-- Witness for C1: a concrete one-particle state, no hand, zero noise. -/
theorem claim1_witness :
    (psUpdate cfg1 (fun _ => 0) (fun _ => 0) (fun _ => 1/2) 0 theme0 st0
        stP).velocities.getD 0 Vec3.zero = ⟨207/625, 207/625, 207/625⟩ ∧
    (psUpdate cfg1 (fun _ => 0) (fun _ => 0) (fun _ => 1/2) 0 theme0 st0
        stP).currentPositions.getD 0 Vec3.zero
      = (⟨1, 2, 3⟩ : Vec3) + ⟨207/625, 207/625, 207/625⟩ ∧
    (psUpdate cfg1 (fun _ => 0) (fun _ => 0) (fun _ => 1/2) 0 theme0 st0
        stP).positionsBuf.getD (3*0) 0
      = ((⟨1, 2, 3⟩ : Vec3) + ⟨207/625, 207/625, 207/625⟩).x ∧
    (psUpdate cfg1 (fun _ => 0) (fun _ => 0) (fun _ => 1/2) 0 theme0 st0
        stP).positionsBuf.getD (3*0 + 1) 0
      = ((⟨1, 2, 3⟩ : Vec3) + ⟨207/625, 207/625, 207/625⟩).y ∧
    (psUpdate cfg1 (fun _ => 0) (fun _ => 0) (fun _ => 1/2) 0 theme0 st0
        stP).positionsBuf.getD (3*0 + 2) 0
      = ((⟨1, 2, 3⟩ : Vec3) + ⟨207/625, 207/625, 207/625⟩).z :=
  claim1_update_friction_once cfg1 (fun _ => 0) (fun _ => 0) (fun _ => 1/2) 0
    theme0 st0 stP 0 ⟨1, 2, 3⟩ ⟨0, 0, 0⟩ ⟨4, 5, 6⟩ ⟨207/625, 207/625, 207/625⟩
    (by norm_num [cfg1, CONFIG]) (by simp [stP]) (by simp [stP]) (by simp [stP])
    (by norm_num [Vec3.scale, springForce, noiseVec, handForce, Vec3.add_def,
      Vec3.sub_def, cfg1, CONFIG, st0, sentinelPos, Vec3.zero, Vec3.mk.injEq])

/-- C9: after every `ParticleSystem.update`, every channel written into
the colour buffer lies in `[0, 1]`, for all theme colours with channels
in `[0, 1]` and all hand positions (given that the sine oracle stays in
`[-1, 1]` and the influence radius is positive, as in `CONFIG`). -/
theorem claim9_color_clamped (cfg : Config) (sinFn sqrtFn : ℚ → ℚ)
    (rand : ℕ → ℚ) (time : ℚ) (theme : Theme) (istate : InteractionState)
    (st : PSState) (hR : 0 < cfg.handInfluenceRadius)
    (hs : ∀ q, -1 ≤ sinFn q ∧ sinFn q ≤ 1)
    (h1 : theme.color1.inUnit) (h2 : theme.color2.inUnit) :
    ∀ q ∈ (psUpdate cfg sinFn sqrtFn rand time theme istate st).colorsBuf,
      0 ≤ q ∧ q ≤ 1 := by
  intro q hq
  have hcb : (psUpdate cfg sinFn sqrtFn rand time theme istate st).colorsBuf
      = flattenC (((List.range cfg.particleCount).map
          (updateIter cfg sinFn sqrtFn rand time theme istate st)).map
            (fun r => r.1)) := rfl
  rw [hcb] at hq
  obtain ⟨c, hcmem, hch⟩ := mem_flattenC hq
  rw [List.map_map] at hcmem
  obtain ⟨j, hj, hcj⟩ := List.mem_map.1 hcmem
  have hcu : c.inUnit := by
    rw [← hcj]
    exact colorStep_inUnit cfg sqrtFn _ theme istate.rightHandPos _ hR
      (hs _).1 (hs _).2 h1 h2
  obtain ⟨u0, u1, v0, v1, w0, w1⟩ := hcu
  rcases hch with h | h | h <;> subst h
  · exact ⟨u0, u1⟩
  · exact ⟨v0, v1⟩
  · exact ⟨w0, w1⟩

/-- Witness for C9 at a concrete one-particle state: the concrete red
channel `3/10` written by that update is in the buffer and in `[0, 1]`. -/
theorem claim9_witness :
    (3/10 : ℚ) ∈ (psUpdate cfg1 (fun _ => 0) (fun _ => 0) (fun _ => 1/2) 0
      theme0 st0 stP).colorsBuf ∧
    (0 ≤ (3/10 : ℚ) ∧ (3/10 : ℚ) ≤ 1) := by
  have hmem : (3/10 : ℚ) ∈ (psUpdate cfg1 (fun _ => 0) (fun _ => 0)
      (fun _ => 1/2) 0 theme0 st0 stP).colorsBuf := by
    norm_num [psUpdate, updateIter, colorStep, Color.lerp, lerpQ, flattenC,
      cfg1, CONFIG, theme0, st0, stP, sentinelPos]
  exact ⟨hmem,
    claim9_color_clamped cfg1 (fun _ => 0) (fun _ => 0) (fun _ => 1/2) 0 theme0
      st0 stP (by norm_num [cfg1, CONFIG]) (fun q => by norm_num)
      (by norm_num [theme0, Color.inUnit]) (by norm_num [theme0, Color.inUnit])
      (3/10) hmem⟩

/-- C4: a detector result with zero hands resets the action to neutral
and the position to the sentinel `(9999, 9999, 0)` and leaves `mode`
unchanged; the call is idempotent; and an update that reads the sentinel
applies no hand force (`handForce = 0`) and no hand-proximity colour
effect (the colour equals the plain two-colour blend). -/
theorem claim4_zero_hands (cfg : Config) (width height : ℚ) (sqrtFn : ℚ → ℚ)
    (theme : Theme) (results : Option (List TrackedHand))
    (st : InteractionState) (hz : results = none ∨ results = some []) :
    processResults cfg width height sqrtFn results st
      = ⟨st.mode, sentinelPos, HandAction.neutral⟩ ∧
    processResults cfg width height sqrtFn results
        (processResults cfg width height sqrtFn results st)
      = processResults cfg width height sqrtFn results st ∧
    (∀ (a : HandAction) (p : Vec3), handForce cfg sentinelPos a p = Vec3.zero) ∧
    (∀ (sq : ℚ → ℚ) (sinVal : ℚ) (p : Vec3),
      colorStep cfg sq sinVal theme sentinelPos p =
        ⟨min 1 (lerpQ theme.color1.r theme.color2.r ((sinVal + 1)/2) * (12/10)),
         min 1 (lerpQ theme.color1.g theme.color2.g ((sinVal + 1)/2) * (12/10)),
         min 1 (lerpQ theme.color1.b theme.color2.b ((sinVal + 1)/2) * (12/10))⟩) := by
  refine ⟨?_, ?_, ?_, ?_⟩
  · rcases hz with h | h <;> subst h <;> rfl
  · rcases hz with h | h <;> subst h <;> rfl
  · intro a p
    simp [handForce, sentinelPos]
  · intro sq sinVal p
    simp [colorStep, sentinelPos, Color.lerp]

/-- Witness for C4 at the empty-hand-list input. -/
theorem claim4_witness :
    processResults CONFIG 100 100 (fun _ => 0) (some []) st0
      = ⟨st0.mode, sentinelPos, HandAction.neutral⟩ ∧
    processResults CONFIG 100 100 (fun _ => 0) (some [])
        (processResults CONFIG 100 100 (fun _ => 0) (some []) st0)
      = processResults CONFIG 100 100 (fun _ => 0) (some []) st0 ∧
    (∀ (a : HandAction) (p : Vec3),
      handForce CONFIG sentinelPos a p = Vec3.zero) ∧
    (∀ (sq : ℚ → ℚ) (sinVal : ℚ) (p : Vec3),
      colorStep CONFIG sq sinVal theme0 sentinelPos p =
        ⟨min 1 (lerpQ theme0.color1.r theme0.color2.r ((sinVal + 1)/2) * (12/10)),
         min 1 (lerpQ theme0.color1.g theme0.color2.g ((sinVal + 1)/2) * (12/10)),
         min 1 (lerpQ theme0.color1.b theme0.color2.b ((sinVal + 1)/2) * (12/10))⟩) :=
  claim4_zero_hands CONFIG 100 100 (fun _ => 0) theme0 (some []) st0 (Or.inr rfl)

/-- C5: on the five-finger classifier variant, a non-dominant-hand
landmark set whose four non-thumb fingertips are above their PIP joints
and whose extended-finger count is in the valid mode range `[1, 5]` gets
that count committed as the new mode, and the mode keeps that value on
subsequent calls until a different valid count is observed. -/
theorem claim5_mode_commit (sqrtFn : ℚ → ℚ) (lm : ℕ → Landmark)
    (st : InteractionState)
    (h8 : (lm 8).y < (lm 6).y) (h12 : (lm 12).y < (lm 10).y)
    (h16 : (lm 16).y < (lm 14).y) (h20 : (lm 20).y < (lm 18).y)
    (hrange : 1 ≤ fingersV3 sqrtFn lm ∧ fingersV3 sqrtFn lm ≤ 5) :
    (processLeftHandV3 sqrtFn lm st).mode = fingersV3 sqrtFn lm ∧
    ∀ (sq2 : ℚ → ℚ) (lm2 : ℕ → Landmark),
      (fingersV3 sq2 lm2 = fingersV3 sqrtFn lm ∨ fingersV3 sq2 lm2 = 0 ∨
        5 < fingersV3 sq2 lm2) →
      (processLeftHandV3 sq2 lm2 (processLeftHandV3 sqrtFn lm st)).mode
        = fingersV3 sqrtFn lm := by
  have hmain : ∀ (s : InteractionState),
      (processLeftHandV3 sqrtFn lm s).mode = fingersV3 sqrtFn lm := by
    intro s
    simp only [processLeftHandV3]
    split_ifs with h
    · rfl
    · push_neg at h
      exact h hrange.1 hrange.2
  refine ⟨hmain st, ?_⟩
  intro sq2 lm2 hc
  set st1 := processLeftHandV3 sqrtFn lm st with hst1
  have hmode : st1.mode = fingersV3 sqrtFn lm := hmain st
  simp only [processLeftHandV3]
  split_ifs with h
  · exfalso
    obtain ⟨ha, hb, hne⟩ := h
    rcases hc with hq | hq | hq
    · exact hne (hmode.trans hq.symm)
    · omega
    · omega
  · exact hmode

/-- Witness for C5: all four non-thumb fingers extended, thumb curled. -/
theorem claim5_witness :
    (processLeftHandV3 (fun _ => 0) lmExtended st0).mode
      = fingersV3 (fun _ => 0) lmExtended ∧
    ∀ (sq2 : ℚ → ℚ) (lm2 : ℕ → Landmark),
      (fingersV3 sq2 lm2 = fingersV3 (fun _ => 0) lmExtended ∨
        fingersV3 sq2 lm2 = 0 ∨ 5 < fingersV3 sq2 lm2) →
      (processLeftHandV3 sq2 lm2
        (processLeftHandV3 (fun _ => 0) lmExtended st0)).mode
        = fingersV3 (fun _ => 0) lmExtended :=
  claim5_mode_commit (fun _ => 0) lmExtended st0
    (by norm_num [lmExtended]) (by norm_num [lmExtended])
    (by norm_num [lmExtended]) (by norm_num [lmExtended])
    (by norm_num [fingersV3, lmExtended])

/-- C6: on the curl-based classifier variants, a dominant-hand landmark
set with curled-finger count 4 and average fingertip-to-PIP distance
`0.03 < 0.08` classifies as `fist`, regardless of `avgDist`. -/
theorem claim6_fist_curl (cfg : Config) (width height : ℚ) (sqrtFn : ℚ → ℚ)
    (lm : ℕ → Landmark) (st : InteractionState)
    (hcurl : curledCount lm = 4)
    (htp : avgTipToPipDist sqrtFn lm = 3/100) :
    (processRightHandV2 cfg width height sqrtFn lm st).rightHandAction
      = HandAction.fist ∧
    (processRightHandV3 cfg width height sqrtFn lm st).rightHandAction
      = HandAction.fist := by
  have hf : (3 ≤ curledCount lm ∧ avgTipToPipDist sqrtFn lm < 8/100) ∨
      avgDist sqrtFn lm < cfg.fistThreshold :=
    Or.inl ⟨by omega, by rw [htp]; norm_num⟩
  constructor
  · simp only [processRightHandV2]
    rw [if_pos hf]
  · simp only [processRightHandV3]
    rw [if_pos hf]

/-- Witness for C6: all four fingers curled, fingertips `0.03` from
their PIP joints. -/
theorem claim6_witness :
    (processRightHandV2 CONFIG 100 100 (fun _ => 3/100) lmCurled
      st0).rightHandAction = HandAction.fist ∧
    (processRightHandV3 CONFIG 100 100 (fun _ => 3/100) lmCurled
      st0).rightHandAction = HandAction.fist :=
  claim6_fist_curl CONFIG 100 100 (fun _ => 3/100) lmCurled st0
    (by norm_num [curledCount, lmCurled])
    (by norm_num [avgTipToPipDist, lmCurled])

/-- Counterexample to C7 as stated: on the curl-based classifier
(`part_002`), a landmark set with `avgDist` exactly equal to
`fistThreshold` can still classify as `fist` (not `neutral`) through the
curl disjunct.  `sqrt7` agrees with the true square root on both squared
distances that occur (`0.15² = 9/400`, `0.03² = 9/10000`). -/
theorem claim7_counterexample :
    avgDist sqrt7 lm7 = CONFIG.fistThreshold ∧
    sqrt7 (9/400) ^ 2 = 9/400 ∧ 0 ≤ sqrt7 (9/400) ∧
    sqrt7 (9/10000) ^ 2 = 9/10000 ∧ 0 ≤ sqrt7 (9/10000) ∧
    (processRightHandV2 CONFIG 100 100 sqrt7 lm7 st0).rightHandAction
      = HandAction.fist := by
  refine ⟨?_, ?_, ?_, ?_, ?_, ?_⟩
  · norm_num [avgDist, sqrt7, lm7, CONFIG]
  · norm_num [sqrt7]
  · norm_num [sqrt7]
  · norm_num [sqrt7]
  · norm_num [sqrt7]
  · norm_num [processRightHandV2, curledCount, avgTipToPipDist, avgDist,
      sqrt7, lm7, CONFIG]

/-- C7 amended: the `avgDist` threshold comparisons are strict, so on
the simple classifier an `avgDist` exactly equal to either threshold
always resolves to `neutral`; on the curl-based classifier it resolves
to `neutral` provided the curl-based fist disjunct does not hold. -/
theorem claim7_amended (cfg : Config) (width height : ℚ) (sqrtFn : ℚ → ℚ)
    (lm : ℕ → Landmark) (st : InteractionState)
    (hord : cfg.fistThreshold ≤ cfg.openThreshold)
    (heq : avgDist sqrtFn lm = cfg.fistThreshold ∨
      avgDist sqrtFn lm = cfg.openThreshold) :
    (processRightHand cfg width height sqrtFn lm st).rightHandAction
      = HandAction.neutral ∧
    (¬(3 ≤ curledCount lm ∧ avgTipToPipDist sqrtFn lm < 8/100) →
      (processRightHandV2 cfg width height sqrtFn lm st).rightHandAction
        = HandAction.neutral) := by
  constructor
  · simp only [processRightHand]
    rcases heq with h | h
    · have hA : ¬ avgDist sqrtFn lm < cfg.fistThreshold := by
        rw [h]; exact lt_irrefl _
      have hB : ¬ avgDist sqrtFn lm > cfg.openThreshold := by
        rw [h]; exact not_lt.2 hord
      rw [if_neg hA, if_neg hB]
    · have hA : ¬ avgDist sqrtFn lm < cfg.fistThreshold := by
        rw [h]; exact not_lt.2 hord
      have hB : ¬ avgDist sqrtFn lm > cfg.openThreshold := by
        rw [h]; exact lt_irrefl _
      rw [if_neg hA, if_neg hB]
  · intro hncurl
    simp only [processRightHandV2]
    have hA : ¬((3 ≤ curledCount lm ∧ avgTipToPipDist sqrtFn lm < 8/100) ∨
        avgDist sqrtFn lm < cfg.fistThreshold) := by
      rintro (hc | hlt)
      · exact hncurl hc
      · rcases heq with h | h
        · rw [h] at hlt; exact lt_irrefl _ hlt
        · rw [h] at hlt; exact absurd hlt (not_lt.2 hord)
    have hB : ¬(curledCount lm ≤ 1 ∧ avgDist sqrtFn lm > cfg.openThreshold) := by
      rintro ⟨-, hgt⟩
      rcases heq with h | h
      · rw [h] at hgt; exact absurd hgt (not_lt.2 hord)
      · rw [h] at hgt; exact lt_irrefl _ hgt
    rw [if_neg hA, if_neg hB]

/-- Witness for the amended C7: a non-curled landmark set whose
`avgDist` equals `fistThreshold` exactly. -/
theorem claim7_witness :
    (processRightHand CONFIG 100 100 (fun _ => 15/100) lmExtended
      st0).rightHandAction = HandAction.neutral ∧
    (¬(3 ≤ curledCount lmExtended ∧
        avgTipToPipDist (fun _ => 15/100) lmExtended < 8/100) →
      (processRightHandV2 CONFIG 100 100 (fun _ => 15/100) lmExtended
        st0).rightHandAction = HandAction.neutral) :=
  claim7_amended CONFIG 100 100 (fun _ => 15/100) lmExtended st0
    (by norm_num [CONFIG])
    (Or.inl (by norm_num [avgDist, CONFIG]))

/-- Counterexample to C2 as stated: with the hand present at the origin
and a particle at `(100, 0, 0)` (inside the physics-influence radius),
the default-action ("flow") branch adds a force with positive `x`
component — along `p - hand`, i.e. pushing the particle *away* from the
hand, not a "weak attraction toward the hand". -/
theorem claim2_counterexample :
    ((⟨100, 0, 0⟩ : Vec3).x - (⟨0, 0, 0⟩ : Vec3).x) > 0 ∧
    (100 : ℚ) * 100 + 0 * 0 + 0 * 0 + 100 < CONFIG.physicsInfluenceRadius ∧
    (handForce CONFIG ⟨0, 0, 0⟩ HandAction.neutral ⟨100, 0, 0⟩).x = 300/101 ∧
    (0 : ℚ) < 300/101 := by
  refine ⟨by norm_num, by norm_num [CONFIG], ?_, by norm_num⟩
  norm_num [handForce, CONFIG]

/-- C2 amended: with the dominant hand present and the particle within
the physics-influence radius, exactly one of three branches applies,
selected solely by `rightHandAction`: `fist` attracts (coefficient
`-0.08·mag` on the particle-minus-hand delta) plus a tangential swirl;
`open` repels (`+0.15·mag`) plus a constant `+2` bias on the depth axis;
any other action applies a weak *repulsion* (`+0.02·mag`, along the
delta away from the hand) at a much smaller coefficient than either. -/
theorem claim2_amended (cfg : Config) (rhPos p : Vec3) (a : HandAction)
    (distSq mag : ℚ) (hx : rhPos.x ≠ 9999)
    (hd : distSq = (p.x - rhPos.x) * (p.x - rhPos.x) +
      (p.y - rhPos.y) * (p.y - rhPos.y) +
      (p.z - rhPos.z) * (p.z - rhPos.z) + 100)
    (hm : mag = cfg.forceMultiplier / distSq)
    (hin : distSq < cfg.physicsInfluenceRadius) :
    (a = HandAction.fist →
      handForce cfg rhPos a p =
        Vec3.scale (-(8/100) * mag) (p - rhPos) +
          ⟨(p.y - rhPos.y) * (5/100), -((p.x - rhPos.x) * (5/100)), 0⟩) ∧
    ((p.y - rhPos.y) * (5/100)) * (p.x - rhPos.x) +
      (-((p.x - rhPos.x) * (5/100))) * (p.y - rhPos.y) = 0 ∧
    (a = HandAction.openHand →
      handForce cfg rhPos a p =
        Vec3.scale ((15/100) * mag) (p - rhPos) + ⟨0, 0, 2⟩) ∧
    (a ≠ HandAction.fist → a ≠ HandAction.openHand →
      handForce cfg rhPos a p = Vec3.scale ((2/100) * mag) (p - rhPos)) ∧
    (2/100 : ℚ) < 8/100 ∧ (2/100 : ℚ) < 15/100 := by
  subst hd hm
  refine ⟨?_, by ring, ?_, ?_, by norm_num, by norm_num⟩
  · rintro rfl
    simp only [handForce]
    rw [if_pos hx, if_pos hin]
    simp only [Vec3.scale, Vec3.add_def, Vec3.sub_def, Vec3.mk.injEq]
    refine ⟨?_, ?_, ?_⟩ <;> ring
  · rintro rfl
    simp only [handForce]
    rw [if_pos hx, if_pos hin]
    simp only [Vec3.scale, Vec3.add_def, Vec3.sub_def, Vec3.mk.injEq]
    refine ⟨?_, ?_, ?_⟩ <;> ring
  · intro hf ho
    cases a with
    | fist => exact absurd rfl hf
    | openHand => exact absurd rfl ho
    | neutral =>
        simp only [handForce]
        rw [if_pos hx, if_pos hin]
        simp only [Vec3.scale, Vec3.sub_def, Vec3.mk.injEq]
        refine ⟨?_, ?_, ?_⟩ <;> ring
    | oneFinger =>
        simp only [handForce]
        rw [if_pos hx, if_pos hin]
        simp only [Vec3.scale, Vec3.sub_def, Vec3.mk.injEq]
        refine ⟨?_, ?_, ?_⟩ <;> ring
    | twoFingers =>
        simp only [handForce]
        rw [if_pos hx, if_pos hin]
        simp only [Vec3.scale, Vec3.sub_def, Vec3.mk.injEq]
        refine ⟨?_, ?_, ?_⟩ <;> ring

/-- Witness for the amended C2 at a concrete in-radius configuration. -/
theorem claim2_witness :
    (HandAction.neutral = HandAction.fist →
      handForce CONFIG ⟨0, 0, 0⟩ HandAction.neutral ⟨100, 0, 0⟩ =
        Vec3.scale (-(8/100) * (150/101))
            ((⟨100, 0, 0⟩ : Vec3) - ⟨0, 0, 0⟩) +
          ⟨((⟨100, 0, 0⟩ : Vec3).y - (⟨0, 0, 0⟩ : Vec3).y) * (5/100),
           -(((⟨100, 0, 0⟩ : Vec3).x - (⟨0, 0, 0⟩ : Vec3).x) * (5/100)), 0⟩) ∧
    (((⟨100, 0, 0⟩ : Vec3).y - (⟨0, 0, 0⟩ : Vec3).y) * (5/100)) *
        ((⟨100, 0, 0⟩ : Vec3).x - (⟨0, 0, 0⟩ : Vec3).x) +
      (-(((⟨100, 0, 0⟩ : Vec3).x - (⟨0, 0, 0⟩ : Vec3).x) * (5/100))) *
        ((⟨100, 0, 0⟩ : Vec3).y - (⟨0, 0, 0⟩ : Vec3).y) = 0 ∧
    (HandAction.neutral = HandAction.openHand →
      handForce CONFIG ⟨0, 0, 0⟩ HandAction.neutral ⟨100, 0, 0⟩ =
        Vec3.scale ((15/100) * (150/101)) ((⟨100, 0, 0⟩ : Vec3) - ⟨0, 0, 0⟩) +
          ⟨0, 0, 2⟩) ∧
    (HandAction.neutral ≠ HandAction.fist →
      HandAction.neutral ≠ HandAction.openHand →
      handForce CONFIG ⟨0, 0, 0⟩ HandAction.neutral ⟨100, 0, 0⟩ =
        Vec3.scale ((2/100) * (150/101)) ((⟨100, 0, 0⟩ : Vec3) - ⟨0, 0, 0⟩)) ∧
    (2/100 : ℚ) < 8/100 ∧ (2/100 : ℚ) < 15/100 :=
  claim2_amended CONFIG ⟨0, 0, 0⟩ ⟨100, 0, 0⟩ HandAction.neutral 10100 (150/101)
    (by norm_num) (by norm_num) (by norm_num [CONFIG]) (by norm_num [CONFIG])

/-- C3: after `generateTextParticles`, all `count` targets are defined:
index `i` takes the `i`-th post-shuffle glyph point when `i` is below
the sampled point count, and otherwise a synthetic point on a ring of
radius in `[500, 1000)` at the drawn angle with random depth; when more
points than `count` were sampled only the first `count` post-shuffle
points are used. -/
theorem claim3_targets_defined (count : ℕ) (bits : List Bool)
    (pts : List GlyphPoint) (cosA sinA randR randZ : ℕ → ℚ)
    (hcount : 0 < count)
    (hr : ∀ i, 0 ≤ randR i ∧ randR i < 1)
    (htrig : ∀ i, (cosA i)^2 + (sinA i)^2 = 1) :
    (generateTextParticles count bits pts cosA sinA randR randZ).length
      = count ∧
    (∀ i (hip : i < (jsShuffle bits pts).length), i < count →
      (generateTextParticles count bits pts cosA sinA randR randZ).getD i
          Vec3.zero
        = ⟨((jsShuffle bits pts).get ⟨i, hip⟩).x,
            ((jsShuffle bits pts).get ⟨i, hip⟩).y, 0⟩) ∧
    (∀ i, i < count → (jsShuffle bits pts).length ≤ i →
      500 ≤ 500 + randR i * 500 ∧ 500 + randR i * 500 < 1000 ∧
      (generateTextParticles count bits pts cosA sinA randR randZ).getD i
          Vec3.zero
        = ⟨cosA i * (500 + randR i * 500), sinA i * (500 + randR i * 500),
            (randZ i - 1/2) * 400⟩ ∧
      (cosA i * (500 + randR i * 500))^2 + (sinA i * (500 + randR i * 500))^2
        = (500 + randR i * 500)^2) := by
  refine ⟨?_, ?_, ?_⟩
  · simp [generateTextParticles, generateTargets]
  · intro i hip hic
    simp only [generateTextParticles, generateTargets]
    rw [getD_range_map _ _ _ hic]
    rw [dif_pos hip]
  · intro i hic hlen
    have h1 := (hr i).1
    have h2 := (hr i).2
    refine ⟨by nlinarith, by nlinarith, ?_, ?_⟩
    · simp only [generateTextParticles, generateTargets]
      rw [getD_range_map _ _ _ hic]
      rw [dif_neg (by omega : ¬ i < (jsShuffle bits pts).length)]
    · have h3 := htrig i
      nlinarith [htrig i, sq_nonneg (500 + randR i * 500)]

/-- Witness for C3: two particles, one sampled point, constant oracles. -/
theorem claim3_witness :
    (generateTextParticles 2 [] [⟨1, 2⟩] (fun _ => 1) (fun _ => 0)
      (fun _ => 0) (fun _ => 1/2)).length = 2 ∧
    (∀ i (hip : i < (jsShuffle ([] : List Bool)
        ([⟨1, 2⟩] : List GlyphPoint)).length), i < 2 →
      (generateTextParticles 2 [] [⟨1, 2⟩] (fun _ => 1) (fun _ => 0)
          (fun _ => 0) (fun _ => 1/2)).getD i Vec3.zero
        = ⟨((jsShuffle ([] : List Bool) ([⟨1, 2⟩] : List GlyphPoint)).get
              ⟨i, hip⟩).x,
            ((jsShuffle ([] : List Bool) ([⟨1, 2⟩] : List GlyphPoint)).get
              ⟨i, hip⟩).y, 0⟩) ∧
    (∀ i, i < 2 →
      (jsShuffle ([] : List Bool) ([⟨1, 2⟩] : List GlyphPoint)).length ≤ i →
      500 ≤ 500 + (fun (_ : ℕ) => (0:ℚ)) i * 500 ∧
      500 + (fun (_ : ℕ) => (0:ℚ)) i * 500 < 1000 ∧
      (generateTextParticles 2 [] [⟨1, 2⟩] (fun _ => 1) (fun _ => 0)
          (fun _ => 0) (fun _ => 1/2)).getD i Vec3.zero
        = ⟨(fun (_ : ℕ) => (1:ℚ)) i * (500 + (fun (_ : ℕ) => (0:ℚ)) i * 500),
            (fun (_ : ℕ) => (0:ℚ)) i * (500 + (fun (_ : ℕ) => (0:ℚ)) i * 500),
            ((fun (_ : ℕ) => (1/2 : ℚ)) i - 1/2) * 400⟩ ∧
      ((fun (_ : ℕ) => (1:ℚ)) i * (500 + (fun (_ : ℕ) => (0:ℚ)) i * 500))^2 +
          ((fun (_ : ℕ) => (0:ℚ)) i * (500 + (fun (_ : ℕ) => (0:ℚ)) i * 500))^2
        = (500 + (fun (_ : ℕ) => (0:ℚ)) i * 500)^2) :=
  claim3_targets_defined 2 [] [⟨1, 2⟩] (fun _ => 1) (fun _ => 0) (fun _ => 0)
    (fun _ => 1/2) (by norm_num) (fun i => by norm_num) (fun i => by norm_num)

/-- Counterexample to C8 as stated: the random-comparator sort is not a
uniform shuffle.  Over all `2³ = 8` equally likely comparator-outcome
vectors, the input order `[1,2,3]` is produced by 2 of them (probability
`1/4`) while `[2,1,3]` is produced by only 1 (probability `1/8`), so not
every permutation is equally likely. -/
theorem claim8_counterexample :
    shuffleCount 3 [1, 2, 3] [1, 2, 3] = 2 ∧
    shuffleCount 3 [1, 2, 3] [2, 1, 3] = 1 := by
  constructor <;> rfl

/-- C8 amended: the sampled points are reordered by the random-comparator
sort before being consumed, and the result is always a permutation of the
sampled point sequence (though not a uniformly distributed one). -/
theorem claim8_shuffle_perm {α : Type} (bits : List Bool) (l : List α) :
    (jsShuffle bits l).Perm l :=
  isortBits_perm bits l

end Text3D
